import Mathlib

/-!
Shallow embedding of the apple-music-git Electron shell, covering:
  - the settings store (`src/utils/persistence.ts`, `loadWindowState`),
  - the region resolver (`src/utils/region.ts`, `detectRegion` / `getAppleMusicUrl`),
  - the DOM automation engine (`src/utils/autoplay.ts`, `generateAutoPlayScript`;
    `src/utils/selectors.ts`, `createClickScript`),
  - the embedded view controller (`src/core/music-view-manager.ts`:
    `handleAutoPlay`, `updateMusicViewBounds`, `setWindowOpenHandler`),
  - the IPC transport-command handlers (play-pause / next-track / previous-track).
JavaScript numbers that hold window dimensions are modelled as `Int`; JSON
fields that may be absent or `null` are modelled as `Option`; a JavaScript
`x || d` on a number is modelled with `0` as the only falsy number, and on a
boolean with `false` as the falsy case; `a ?? d` is `Option.getD`.  Fallible
operations (file read/parse, HTTP fetch, script execution) are modelled by
`Option` / `Except` / an explicit result datatype.
-/

/-- Whether `pat` occurs as a contiguous run inside the character list,
mirroring the substring search of JavaScript `String.prototype.includes`. -/
def infixOfChars (pat : List Char) : List Char → Bool
  | [] => List.isPrefixOf pat []
  | c :: rest => List.isPrefixOf pat (c :: rest) || infixOfChars pat rest

/-- JavaScript `s.includes(pat)`. -/
def strIncludes (s pat : String) : Bool := infixOfChars pat.data s.data

/-- JavaScript `s.endsWith(post)`. -/
def strEndsWith (s post : String) : Bool := List.isSuffixOf post.data s.data

/-- JavaScript `s.toLowerCase()` on ASCII country codes. -/
def strToLower (s : String) : String := ⟨s.data.map Char.toLower⟩

/-- JavaScript `s.toUpperCase()` on ASCII country codes. -/
def strToUpper (s : String) : String := ⟨s.data.map Char.toUpper⟩

namespace Persistence

/-- The `WindowState` record produced by `loadWindowState`
(`src/utils/persistence.ts` lines 5-13). -/
structure WindowState where
  width : Int
  height : Int
  x : Option Int
  y : Option Int
  isMaximized : Bool
  isDarkMode : Bool
  isMiniPlayer : Bool
deriving DecidableEq, Repr

/-- A parsed settings file as `JSON.parse` delivers it: every field may be
absent or `null` (both modelled as `none`), numbers are `Int`. -/
structure PersistedState where
  width : Option Int
  height : Option Int
  x : Option Int
  y : Option Int
  isMaximized : Option Bool
  isDarkMode : Option Bool
  isMiniPlayer : Option Bool
deriving DecidableEq, Repr

/-- `DEFAULT_STATE` (`src/utils/persistence.ts` lines 17-23). -/
def DEFAULT_STATE : WindowState :=
  { width := 1200, height := 800, x := none, y := none,
    isMaximized := false, isDarkMode := true, isMiniPlayer := false }

/-- JavaScript `v || dflt` on a numeric JSON field: `undefined`, `null` and
`0` are falsy and yield the default. -/
def jsOrNum (v : Option Int) (dflt : Int) : Int :=
  match v with
  | none => dflt
  | some n => if n = 0 then dflt else n

/-- JavaScript `v || false` on a boolean JSON field. -/
def jsOrBool (v : Option Bool) : Bool :=
  match v with
  | some b => b
  | none => false

/-- JavaScript `v ?? dflt` (nullish coalescing) on a boolean JSON field. -/
def jsNullishBool (v : Option Bool) (dflt : Bool) : Bool := v.getD dflt

/-- `loadWindowState` (`src/utils/persistence.ts` lines 28-50).  The argument
is `none` when the settings file is missing, unreadable, or fails to parse
(the `try`/`catch` path and the `existsSync` false path both reach
`return DEFAULT_STATE`); it is `some state` when `JSON.parse` succeeded. -/
def loadWindowState (file : Option PersistedState) : WindowState :=
  match file with
  | some state =>
    { width := max (jsOrNum state.width DEFAULT_STATE.width) 800,
      height := max (jsOrNum state.height DEFAULT_STATE.height) 600,
      x := state.x,
      y := state.y,
      isMaximized := jsOrBool state.isMaximized,
      isDarkMode := jsNullishBool state.isDarkMode true,
      isMiniPlayer := jsOrBool state.isMiniPlayer }
  | none => DEFAULT_STATE

end Persistence

namespace Region

/-- `SUPPORTED_REGIONS` (`src/utils/region.ts` lines 16-22). -/
def SUPPORTED_REGIONS : List String :=
  ["US", "GB", "CA", "AU", "NZ", "JP", "DE", "FR", "IT", "ES", "NL", "SE", "NO",
   "DK", "FI", "BE", "AT", "CH", "IE", "PT", "GR", "PL", "CZ", "HU", "RO", "BG",
   "HR", "SK", "SI", "EE", "LV", "LT", "CY", "MT", "LU", "IS", "BR", "MX", "AR",
   "CL", "CO", "PE", "IN", "SG", "MY", "TH", "PH", "ID", "VN", "HK", "TW", "KR",
   "CN", "ZA", "AE", "SA", "IL", "TR", "RU", "UA"]

/-- `RegionInfo` (`src/utils/region.ts` lines 5-10). -/
structure RegionInfo where
  country : String
  isSupported : Bool
  appleMusicUrl : String
  message : String
deriving DecidableEq, Repr

/-- The JSON body a geolocation provider returns; each provider reads its
country under a different key (`country_code` for ipapi.co, `countryCode`
for ip-api.com, `country` for ipinfo.io). -/
structure GeoBody where
  country_code : Option String
  countryCode : Option String
  country : Option String
deriving DecidableEq, Repr

/-- Outcome of one provider fetch: the `fetch` call threw (network error),
the response was not `ok` (non-2xx), or a parsed body was obtained. -/
inductive FetchResult where
  | netError
  | httpError
  | ok (body : GeoBody)
deriving DecidableEq, Repr

/-- Whether a provider call failed (threw or returned a non-success
response), i.e. did not reach the `response.ok` body path. -/
def FetchResult.failed : FetchResult → Bool
  | .ok _ => false
  | _ => true

/-- JavaScript `v || dflt` on a string JSON field: `undefined`, `null` and
the empty string are falsy. -/
def jsOrStr (v : Option String) (dflt : String) : String :=
  match v with
  | none => dflt
  | some s => if s = "" then dflt else s

/-- `getAppleMusicUrl` (`src/utils/region.ts` lines 123-133). -/
def getAppleMusicUrl (countryCode : String) : String :=
  let normalizedCode := strToLower countryCode
  if SUPPORTED_REGIONS.contains (strToUpper countryCode) then
    "https://music.apple.com/" ++ normalizedCode ++ "/"
  else
    "https://music.apple.com/us/"

/-- The `RegionInfo` each provider branch of `detectRegion` builds from a
country code (`src/utils/region.ts` lines 41-51, 67-78, 94-105; the three
branches differ only in the provider name in the message). -/
def regionFrom (country : String) (provider : String) : RegionInfo :=
  let isSupported := SUPPORTED_REGIONS.contains country
  { country := country,
    isSupported := isSupported,
    appleMusicUrl := getAppleMusicUrl country,
    message :=
      if isSupported then
        "Apple Music is available in " ++ country ++ " (via " ++ provider ++ ")"
      else
        "Apple Music may not be available in " ++ country ++ ". Using US region." }

/-- Third link of the provider chain: ipinfo.io, then the hardcoded US
fallback (`src/utils/region.ts` lines 85-118). -/
def detectRegionService3 (c : FetchResult) : RegionInfo :=
  match c with
  | .ok body => regionFrom (jsOrStr body.country "US") "ipinfo.io"
  | _ =>
    { country := "US",
      isSupported := true,
      appleMusicUrl := "https://music.apple.com/us/",
      message := "All region detection services failed. Using US region as default." }

/-- Second link of the provider chain: ip-api.com (`src/utils/region.ts`
lines 58-82). -/
def detectRegionService2 (b c : FetchResult) : RegionInfo :=
  match b with
  | .ok body => regionFrom (jsOrStr body.countryCode "US") "ip-api.com"
  | _ => detectRegionService3 c

/-- `detectRegion` (`src/utils/region.ts` lines 29-118): provider chain
ipapi.co → ip-api.com → ipinfo.io → hardcoded US fallback, where each
provider is consulted only when every earlier one failed. -/
def detectRegion (a b c : FetchResult) : RegionInfo :=
  match a with
  | .ok body => regionFrom (jsOrStr body.country_code "US") "ipapi.co"
  | _ => detectRegionService2 b c

end Region

namespace Autoplay

/-- `MODERN_PLAY_SELECTORS` (`src/utils/autoplay.ts` lines 11-38), in source
order: primary play affordances first, then first-track structures, legacy
selectors, the large product play button, and generic fallbacks. -/
def MODERN_PLAY_SELECTORS : List String :=
  ["button[data-testid=\"play-button\"]",
   "button[aria-label*=\"Play\"]",
   "[data-testid=\"tracklist-row\"]:first-child button[data-testid=\"preview-button\"]",
   "[data-testid=\"tracklist-row\"]:first-child button",
   "li.songs-list__row:first-child button",
   "div[role=\"row\"]:first-child button[aria-label*=\"Play\"]",
   "[data-testid=\"track-list\"] [role=\"button\"]:first-child",
   ".songs-list-row:first-child [role=\"button\"]",
   ".tracklist-item:first-child [role=\"button\"]",
   "[data-index=\"0\"][role=\"button\"]",
   ".song-row:first-child",
   "[class*=\"track\"]:first-child [role=\"button\"]",
   "button.product-lockup__play-button",
   "button[data-metrics-click*=\"play\"]",
   "button[class*=\"play-button\"]",
   "button[class*=\"PlayButton\"]",
   "button[class*=\"play-btn\"]"]

/-- The page state the injected script can observe at one poll tick:
`query` is `document.querySelector` (selector string to matched element,
`none` when nothing matches), the remaining fields are the values the
diagnostics block reads from `window.location` / `document` and the three
`querySelectorAll(...).length` counts. -/
structure PageSnapshot where
  query : String → Option String
  url : String
  readyState : String
  title : String
  totalButtons : Nat
  playButtons : Nat
  trackRows : Nat

/-- The diagnostics object of a failed auto-play attempt
(`src/utils/autoplay.ts` lines 49-56 and 219-226). -/
structure Diagnostics where
  url : String
  readyState : String
  title : String
  totalButtons : Nat
  playButtons : Nat
  trackRows : Nat
deriving DecidableEq, Repr

/-- `AutoPlayResult` (`src/utils/autoplay.ts` lines 43-57). -/
structure AutoPlayResult where
  success : Bool
  message : String
  trackFound : Option Bool
  selector : Option String
  error : Option Bool
  diagnostics : Option Diagnostics
deriving DecidableEq, Repr

/-- One poll tick's inner `for (const selector of modernSelectors)` loop
(`src/utils/autoplay.ts` lines 138-147): try every selector in list order
against the current document, first match wins, returning the matched
element and the selector that found it. -/
def scanSelectors (page : PageSnapshot) : List String → Option (String × String)
  | [] => none
  | sel :: rest =>
    match page.query sel with
    | some element => some (element, sel)
    | none => scanSelectors page rest

/-- The `while (attempts < maxAttempts && !playButton)` polling loop
(`src/utils/autoplay.ts` lines 132-158).  `dom t` is the document as it
stands when the counter `attempts` equals `t` (each failed tick sleeps
250ms, so ticks are 250ms apart); `fuel` is `maxAttempts - attempts`.
Returns the found `(element, selector)` (or `none`) together with the final
value of `attempts`. -/
def pollLoop (dom : Nat → PageSnapshot) : Nat → Nat → Option (String × String) × Nat
  | 0, attempts => (none, attempts)
  | fuel + 1, attempts =>
    match scanSelectors (dom attempts) MODERN_PLAY_SELECTORS with
    | some found => (some found, attempts)
    | none => pollLoop dom fuel (attempts + 1)

/-- `maxAttempts` (`src/utils/autoplay.ts` line 128): 60 attempts of 250ms,
a ~15s ceiling. -/
def maxAttempts : Nat := 60

/-- The value the script generated by `generateAutoPlayScript` resolves with
(`src/utils/autoplay.ts` lines 126-228): run the bounded polling loop; on a
match report success with the matched selector; on exhaustion gather the
diagnostics from the document as it stands after the loop (tick
`maxAttempts`) and report failure.  The delayed fallback clicks of the
success branch only schedule timers and do not affect the returned value. -/
def attemptAutoPlay (dom : Nat → PageSnapshot) : AutoPlayResult :=
  match pollLoop dom maxAttempts 0 with
  | (some found, attempts) =>
    { success := true,
      message := "Play button clicked successfully (found after " ++
        toString (attempts * 250) ++ "ms)",
      trackFound := some true,
      selector := some found.2,
      error := none,
      diagnostics := none }
  | (none, _) =>
    let page := dom maxAttempts
    { success := false,
      message := "Play button not found after " ++ toString (maxAttempts * 250) ++ "ms",
      trackFound := some false,
      selector := none,
      error := none,
      diagnostics := some
        { url := page.url,
          readyState := page.readyState,
          title := page.title,
          totalButtons := page.totalButtons,
          playButtons := page.playButtons,
          trackRows := page.trackRows } }

end Autoplay

namespace Selectors

/-- The four selector groups of `APPLE_MUSIC_SELECTORS`
(`src/utils/selectors.ts` lines 6-38), each stored as the comma-joined
selector string the source builds with `.join(', ')`. -/
structure SelectorTable where
  playPause : String
  next : String
  previous : String
  firstTrack : String
deriving DecidableEq, Repr

/-- `APPLE_MUSIC_SELECTORS` (`src/utils/selectors.ts` lines 6-38). -/
def APPLE_MUSIC_SELECTORS : SelectorTable :=
  { playPause := String.intercalate ", "
      ["[data-testid=\"play-pause-button\"]",
       ".playback-controls__playback-btn",
       "button[aria-label*=\"play\"]",
       "button[aria-label*=\"pause\"]",
       "button[title*=\"Play\"]",
       "button[title*=\"Pause\"]"],
    next := String.intercalate ", "
      ["[data-testid=\"next-button\"]",
       ".playback-controls__next-btn",
       "button[aria-label*=\"next\"]",
       "button[title*=\"Next\"]"],
    previous := String.intercalate ", "
      ["[data-testid=\"previous-button\"]",
       ".playback-controls__previous-btn",
       "button[aria-label*=\"previous\"]",
       "button[title*=\"Previous\"]"],
    firstTrack := String.intercalate ", "
      ["[data-testid=\"track-list\"] [role=\"button\"]:first-child",
       ".songs-list-row:first-child [role=\"button\"]",
       ".tracklist-item:first-child [role=\"button\"]",
       "[data-index=\"0\"][role=\"button\"]",
       ".song-row:first-child",
       "[class*=\"track\"]:first-child [role=\"button\"]"] }

/-- The `selectorKey` argument of `createClickScript`
(`keyof typeof APPLE_MUSIC_SELECTORS`). -/
inductive SelectorKey where
  | playPause
  | next
  | previous
  | firstTrack
deriving DecidableEq, Repr

/-- Field lookup `APPLE_MUSIC_SELECTORS[selectorKey]`
(`src/utils/selectors.ts` line 45). -/
def SelectorTable.get : SelectorTable → SelectorKey → String
  | t, .playPause => t.playPause
  | t, .next => t.next
  | t, .previous => t.previous
  | t, .firstTrack => t.firstTrack

/-- What the script built by `createClickScript` does when executed:
whether it clicked anything, and what it wrote to the console. -/
structure ClickOutcome where
  clicked : Bool
  consoleLog : Option String
  consoleWarn : Option String
deriving DecidableEq, Repr

/-- Runtime behaviour of the IIFE returned by `createClickScript`
(`src/utils/selectors.ts` lines 44-61): `document.querySelector` with the
comma-joined selector list; on a match, click it and log
`'<action> clicked'`; otherwise only warn `'<action> button not found'`.
The IIFE returns no value either way (the quoting/escaping of the template
affects only the generated text, not this behaviour). -/
def runClickScript (query : String → Option String) (selectorKey : SelectorKey)
    (actionName : String) : ClickOutcome :=
  match query (APPLE_MUSIC_SELECTORS.get selectorKey) with
  | some _ =>
    { clicked := true, consoleLog := some (actionName ++ " clicked"), consoleWarn := none }
  | none =>
    { clicked := false, consoleLog := none,
      consoleWarn := some (actionName ++ " button not found") }

/-- The `IPCResponse` envelope (`src/core/music-view-manager.ts` lines
606-609). -/
structure IPCResponse where
  success : Bool
  error : Option String
deriving DecidableEq, Repr

/-- The play-pause / next-track / previous-track IPC handlers, which share
this shape (`src/core/music-view-manager.ts` lines 630-690): fail when the
music view is absent; otherwise run the click script via
`executeJavaScript` — modelled as `Except String ClickOutcome`, where
`.error e` is the script execution throwing — and return success when it
resolved, or a failure envelope carrying the error message when it threw. -/
def transportCommandHandler (musicView : Option Unit)
    (exec : Except String ClickOutcome) : IPCResponse :=
  match musicView with
  | none => { success := false, error := some "Music view not available" }
  | some _ =>
    match exec with
    | .ok _ => { success := true, error := none }
    | .error e => { success := false, error := some e }

end Selectors

namespace Manager

/-- `url.includes("/library/playlist/") || url.includes("/playlist/")`
(`src/core/music-view-manager.ts` line 472). -/
def isPlaylistUrl (url : String) : Bool :=
  strIncludes url "/library/playlist/" || strIncludes url "/playlist/"

/-- `url.includes("/album/")` (`src/core/music-view-manager.ts` line 473). -/
def isAlbumUrl (url : String) : Bool := strIncludes url "/album/"

/-- `url.includes("/station/")` (`src/core/music-view-manager.ts` line 474). -/
def isStationUrl (url : String) : Bool := strIncludes url "/station/"

/-- `MusicViewManager.handleAutoPlay` (`src/core/music-view-manager.ts`
lines 469-516), as a transition on the `lastProcessedPlaylistUrl` field:
given the current memento and the navigated URL, returns the new memento
and whether the auto-play script launch is scheduled (`true` exactly when
the URL is a playlist/album/station URL that differs from the memento). -/
def handleAutoPlay (lastProcessedPlaylistUrl url : String) : String × Bool :=
  if isPlaylistUrl url || isAlbumUrl url || isStationUrl url then
    if url == lastProcessedPlaylistUrl then
      (lastProcessedPlaylistUrl, false)
    else
      (url, true)
  else
    (lastProcessedPlaylistUrl, false)

/-- Fold `handleAutoPlay` over a sequence of in-page navigation events,
counting how many of them launch the auto-play script. -/
def autoPlayExecCount (lastProcessedPlaylistUrl : String) :
    List String → String × Nat
  | [] => (lastProcessedPlaylistUrl, 0)
  | url :: rest =>
    let step := handleAutoPlay lastProcessedPlaylistUrl url
    let tail := autoPlayExecCount step.1 rest
    (tail.1, (if step.2 then 1 else 0) + tail.2)

/-- A rectangle as used by `getContentBounds` / `setBounds`. -/
structure Rect where
  x : Int
  y : Int
  width : Int
  height : Int
deriving DecidableEq, Repr

/-- `MusicViewManager.updateMusicViewBounds` (`src/core/music-view-manager.ts`
lines 521-541): the rectangle passed to `setBounds`, computed from the main
window's content width/height and the mini-player flag. -/
def updateMusicViewBounds (isMiniPlayer : Bool) (contentWidth contentHeight : Int) : Rect :=
  let controlBarHeight : Int := if isMiniPlayer then 80 else 60
  { x := 0,
    y := controlBarHeight,
    width := contentWidth,
    height := contentHeight - controlBarHeight }

/-- The result of `new URL(url)` when it does not throw: the fields the
window-open handler inspects. -/
structure ParsedUrl where
  protocol : String
  hostname : String
deriving DecidableEq, Repr

/-- The action value returned by a `setWindowOpenHandler` callback. -/
inductive OpenAction where
  | allow
  | deny
deriving DecidableEq, Repr

/-- The `setWindowOpenHandler` callback (`src/core/music-view-manager.ts`
lines 217-248).  Input `none` means `new URL(url)` threw (unparseable URL,
the `catch` path).  Output: the action, paired with whether
`shell.openExternal` was invoked to deliver the URL to the default
external browser. -/
def windowOpenHandler (u : Option ParsedUrl) : OpenAction × Bool :=
  match u with
  | none => (OpenAction.deny, false)
  | some url =>
    if url.protocol == "https:" &&
        (url.hostname == "music.apple.com" ||
         strEndsWith url.hostname ".music.apple.com") then
      (OpenAction.allow, false)
    else if url.protocol == "https:" &&
        (url.hostname == "appleid.apple.com" ||
         strEndsWith url.hostname ".appleid.apple.com" ||
         url.hostname == "apple.com" ||
         strEndsWith url.hostname ".apple.com") then
      (OpenAction.allow, false)
    else
      (OpenAction.deny, true)

/-- The spec's domain families in one predicate: the host service's own
domain family and its authentication domain family — `music.apple.com`,
`appleid.apple.com`, `apple.com` and their subdomains. -/
def appleFamilyHost (h : String) : Bool :=
  h == "music.apple.com" || strEndsWith h ".music.apple.com" ||
  h == "appleid.apple.com" || strEndsWith h ".appleid.apple.com" ||
  h == "apple.com" || strEndsWith h ".apple.com"

end Manager

namespace Persistence

/-- C4: `loadWindowState` invoked when the settings file is missing, or when
reading/parsing it fails (both are the `none` input of the embedding, since
every such path of the source reaches `return DEFAULT_STATE`), returns
exactly {width 1200, height 800, isMaximized false, isDarkMode true,
isMiniPlayer false} (with no saved position); the function is total, so no
exception reaches the caller. -/
theorem load_missing_returns_defaults :
    loadWindowState none =
      { width := 1200, height := 800, x := none, y := none,
        isMaximized := false, isDarkMode := true, isMiniPlayer := false } := rfl

/-- C5: for every persisted record whose width is below 800 or whose height
is below 600, `loadWindowState` returns a width of at least 800 and a
height of at least 600. -/
theorem load_clamps_minimums (s : PersistedState) (w h : Int)
    (hw : s.width = some w) (hh : s.height = some h)
    (hsub : w < 800 ∨ h < 600) :
    800 ≤ (loadWindowState (some s)).width ∧
    600 ≤ (loadWindowState (some s)).height :=
  ⟨le_max_right _ _, le_max_right _ _⟩

/-- Witness for C5 at a concrete persisted record with width 500 and
height 100. -/
theorem load_clamps_minimums_witness :
    800 ≤ (loadWindowState (some
      { width := some 500, height := some 100, x := none, y := none,
        isMaximized := none, isDarkMode := none, isMiniPlayer := none })).width ∧
    600 ≤ (loadWindowState (some
      { width := some 500, height := some 100, x := none, y := none,
        isMaximized := none, isDarkMode := none, isMiniPlayer := none })).height :=
  load_clamps_minimums
    { width := some 500, height := some 100, x := none, y := none,
      isMaximized := none, isDarkMode := none, isMiniPlayer := none }
    500 100 rfl rfl (Or.inl (by decide))

/-- C10 counterexample: the claim says only positive sub-minimum values are
clamped to exactly the minimum, but a persisted width of −100 (truthy in
JavaScript, so not substituted by the default) is also clamped to exactly
800 although it is not positive. -/
theorem load_falsy_clamp_counterexample :
    (loadWindowState (some
      { width := some (-100), height := some 700, x := none, y := none,
        isMaximized := none, isDarkMode := none, isMiniPlayer := none })).width = 800 ∧
    ¬ (0 < (-100 : Int)) := by decide

/-- C10 amended: a persisted width/height of 0 or null is treated as absent
(`x || default` substitutes the full default 1200/800 before the minimum is
applied, so width 0 yields 1200 and height 0 yields 800), while every
nonzero (truthy) sub-minimum value — positive such as 500, but also
negative — is clamped to exactly 800/600. -/
theorem load_falsy_default_amended (s : PersistedState) :
    ((s.width = some 0 ∨ s.width = none) → (loadWindowState (some s)).width = 1200) ∧
    (∀ w : Int, s.width = some w → w ≠ 0 → w < 800 →
      (loadWindowState (some s)).width = 800) ∧
    ((s.height = some 0 ∨ s.height = none) → (loadWindowState (some s)).height = 800) ∧
    (∀ h : Int, s.height = some h → h ≠ 0 → h < 600 →
      (loadWindowState (some s)).height = 600) := by
  refine ⟨?_, ?_, ?_, ?_⟩
  · intro h0
    show max (jsOrNum s.width DEFAULT_STATE.width) 800 = 1200
    rcases h0 with h0 | h0 <;> rw [h0] <;> decide
  · intro w hw hw0 hwlt
    show max (jsOrNum s.width DEFAULT_STATE.width) 800 = 800
    rw [hw]
    show max (if w = 0 then DEFAULT_STATE.width else w) 800 = 800
    rw [if_neg hw0]
    exact max_eq_right (le_of_lt hwlt)
  · intro h0
    show max (jsOrNum s.height DEFAULT_STATE.height) 600 = 800
    rcases h0 with h0 | h0 <;> rw [h0] <;> decide
  · intro h hh hh0 hhlt
    show max (jsOrNum s.height DEFAULT_STATE.height) 600 = 600
    rw [hh]
    show max (if h = 0 then DEFAULT_STATE.height else h) 600 = 600
    rw [if_neg hh0]
    exact max_eq_right (le_of_lt hhlt)

/-- Witness for the amended C10 at a concrete persisted record with
width 0 (falsy, defaulted to 1200) and height 500 (truthy sub-minimum,
clamped to exactly 600). -/
theorem load_falsy_default_amended_witness :
    (loadWindowState (some
      { width := some 0, height := some 500, x := none, y := none,
        isMaximized := none, isDarkMode := none, isMiniPlayer := none })).width = 1200 ∧
    (loadWindowState (some
      { width := some 0, height := some 500, x := none, y := none,
        isMaximized := none, isDarkMode := none, isMiniPlayer := none })).height = 600 :=
  ⟨(load_falsy_default_amended
      { width := some 0, height := some 500, x := none, y := none,
        isMaximized := none, isDarkMode := none, isMiniPlayer := none }).1
      (Or.inl rfl),
   (load_falsy_default_amended
      { width := some 0, height := some 500, x := none, y := none,
        isMaximized := none, isDarkMode := none, isMiniPlayer := none }).2.2.2
      500 rfl (by decide) (by decide)⟩

end Persistence

namespace Region

/-- C6: when provider A (ipapi.co) returns a non-success HTTP response and
provider B (ip-api.com) returns a valid body with countryCode "DE",
`detectRegion` returns country "DE", isSupported true, and an endpoint URL
containing "/de/" (the lower-cased code interpolated into the path
template), whatever provider C would have answered. -/
theorem region_provider_chain_fallback (c : FetchResult) :
    detectRegion FetchResult.httpError
      (FetchResult.ok { country_code := none, countryCode := some "DE", country := none }) c =
      { country := "DE", isSupported := true,
        appleMusicUrl := "https://music.apple.com/de/",
        message := "Apple Music is available in DE (via ip-api.com)" } ∧
    strIncludes (detectRegion FetchResult.httpError
      (FetchResult.ok { country_code := none, countryCode := some "DE", country := none })
      c).appleMusicUrl "/de/" = true :=
  ⟨rfl, rfl⟩

/-- When the first provider fails, `detectRegion` behaves as the remaining
chain. -/
theorem detectRegion_first_failed (a b c : FetchResult) (ha : a.failed = true) :
    detectRegion a b c = detectRegionService2 b c := by
  cases a with
  | ok body => simp [FetchResult.failed] at ha
  | netError => rfl
  | httpError => rfl

/-- When the second provider fails, the remaining chain behaves as its
last link. -/
theorem detectRegionService2_failed (b c : FetchResult) (hb : b.failed = true) :
    detectRegionService2 b c = detectRegionService3 c := by
  cases b with
  | ok body => simp [FetchResult.failed] at hb
  | netError => rfl
  | httpError => rfl

/-- When the third provider fails, the last link returns the hardcoded US
fallback. -/
theorem detectRegionService3_failed (c : FetchResult) (hc : c.failed = true) :
    detectRegionService3 c =
      { country := "US", isSupported := true,
        appleMusicUrl := "https://music.apple.com/us/",
        message := "All region detection services failed. Using US region as default." } := by
  cases c with
  | ok body => simp [FetchResult.failed] at hc
  | netError => rfl
  | httpError => rfl

/-- C7: when all three geolocation providers fail (network error or
non-success response), `detectRegion` returns country "US", isSupported
true, and the endpoint "https://music.apple.com/us/" (which contains
"/us/"); the function is total, so no exception reaches the caller. -/
theorem region_terminal_fallback (a b c : FetchResult)
    (ha : a.failed = true) (hb : b.failed = true) (hc : c.failed = true) :
    detectRegion a b c =
      { country := "US", isSupported := true,
        appleMusicUrl := "https://music.apple.com/us/",
        message := "All region detection services failed. Using US region as default." } ∧
    strIncludes (detectRegion a b c).appleMusicUrl "/us/" = true := by
  have h := (detectRegion_first_failed a b c ha).trans
    ((detectRegionService2_failed b c hb).trans (detectRegionService3_failed c hc))
  exact ⟨h, by rw [h]; decide⟩

/-- Witness for C7 with provider A throwing, provider B answering a
non-success response, and provider C throwing. -/
theorem region_terminal_fallback_witness :
    detectRegion FetchResult.netError FetchResult.httpError FetchResult.netError =
      { country := "US", isSupported := true,
        appleMusicUrl := "https://music.apple.com/us/",
        message := "All region detection services failed. Using US region as default." } ∧
    strIncludes (detectRegion FetchResult.netError FetchResult.httpError
      FetchResult.netError).appleMusicUrl "/us/" = true :=
  region_terminal_fallback FetchResult.netError FetchResult.httpError FetchResult.netError
    rfl rfl rfl

end Region

namespace Manager

/-- C1: for two consecutive in-page navigation events carrying the identical
playlist/album/station URL (not yet recorded in the memento), the engine
launches the auto-play attempt for the first event only: the first
transition executes the script and records the URL, the second compares the
URL against the memento, finds it identical, and is skipped entirely, so
the execution count over the two events is 1, not 2. -/
theorem autoplay_idempotence_guard (last url : String)
    (hmedia : (isPlaylistUrl url || isAlbumUrl url || isStationUrl url) = true)
    (hnew : url ≠ last) :
    (handleAutoPlay last url).2 = true ∧
    (handleAutoPlay (handleAutoPlay last url).1 url).2 = false ∧
    (autoPlayExecCount last [url, url]).2 = 1 := by
  have hbeq : (url == last) = false := beq_eq_false_iff_ne.mpr hnew
  have hself : (url == url) = true := beq_self_eq_true url
  refine ⟨?_, ?_, ?_⟩
  · simp [handleAutoPlay, hmedia, hbeq]
  · simp [handleAutoPlay, hmedia, hbeq, hself]
  · simp [autoPlayExecCount, handleAutoPlay, hmedia, hbeq, hself]

/-- Witness for C1: a fresh playlist URL navigated to twice in a row from
an empty memento launches exactly one auto-play attempt. -/
theorem autoplay_idempotence_guard_witness :
    (handleAutoPlay "" "https://music.apple.com/us/playlist/pl.u-123").2 = true ∧
    (handleAutoPlay (handleAutoPlay "" "https://music.apple.com/us/playlist/pl.u-123").1
      "https://music.apple.com/us/playlist/pl.u-123").2 = false ∧
    (autoPlayExecCount "" ["https://music.apple.com/us/playlist/pl.u-123",
      "https://music.apple.com/us/playlist/pl.u-123"]).2 = 1 :=
  autoplay_idempotence_guard "" "https://music.apple.com/us/playlist/pl.u-123"
    (by decide) (by decide)

/-- C8: `updateMusicViewBounds` with content width W and height H sets the
surface rectangle to {x 0, y c, width W, height H − c} with c = 80 in
mini-player mode and c = 60 otherwise; in particular W = 1000, H = 900
yields {0, 80, 1000, 820} in mini-player mode and {0, 60, 1000, 840}
otherwise. -/
theorem bounds_layout_formula :
    (∀ w h : Int,
      updateMusicViewBounds true w h = { x := 0, y := 80, width := w, height := h - 80 } ∧
      updateMusicViewBounds false w h = { x := 0, y := 60, width := w, height := h - 60 }) ∧
    updateMusicViewBounds true 1000 900 = { x := 0, y := 80, width := 1000, height := 820 } ∧
    updateMusicViewBounds false 1000 900 = { x := 0, y := 60, width := 1000, height := 840 } :=
  ⟨fun _ _ => ⟨rfl, rfl⟩, by decide, by decide⟩

/-- The two cascaded allow branches of the handler collapse to one test of
the combined disjunction, as a fact about the seven Boolean atoms. -/
theorem windowOpen_branch_merge (p b1 b2 b3 b4 b5 b6 : Bool) :
    (if (p && (b1 || b2)) = true then ((OpenAction.allow, false) : OpenAction × Bool)
     else if (p && (b3 || b4 || b5 || b6)) = true then (OpenAction.allow, false)
     else (OpenAction.deny, true)) =
    (if (p && (b1 || b2 || b3 || b4 || b5 || b6)) = true then (OpenAction.allow, false)
     else (OpenAction.deny, true)) := by
  cases p <;> cases b1 <;> cases b2 <;> cases b3 <;> cases b4 <;> cases b5 <;>
    cases b6 <;> rfl

/-- C9: the window-open handler allows in-surface navigation exactly for
https URLs whose hostname is in the Apple domain family (music.apple.com,
appleid.apple.com, apple.com and their subdomains); every other parseable
destination is denied and delivered to the external default browser, and an
unparseable URL is denied without external delivery. -/
theorem domain_filter_dichotomy :
    windowOpenHandler none = (OpenAction.deny, false) ∧
    ∀ u : ParsedUrl,
      windowOpenHandler (some u) =
        if (u.protocol == "https:") && appleFamilyHost u.hostname then
          (OpenAction.allow, false)
        else
          (OpenAction.deny, true) := by
  refine ⟨rfl, fun u => ?_⟩
  exact windowOpen_branch_merge (u.protocol == "https:")
    (u.hostname == "music.apple.com") (strEndsWith u.hostname ".music.apple.com")
    (u.hostname == "appleid.apple.com") (strEndsWith u.hostname ".appleid.apple.com")
    (u.hostname == "apple.com") (strEndsWith u.hostname ".apple.com")

end Manager

namespace Selectors

/-- C3 counterexample: with a document in which no selector matches any
element and a music view present, the injected play-pause click script
clicks nothing (and only warns), yet the IPC operation returns a success
envelope — not the failure result the claim requires. -/
theorem click_control_counterexample :
    (runClickScript (fun _ => none) SelectorKey.playPause "Play/Pause").clicked = false ∧
    ¬ ((transportCommandHandler (some ())
        (Except.ok (runClickScript (fun _ => none) SelectorKey.playPause
          "Play/Pause"))).success = false) := by decide

/-- C3 amended: when no element matches any selector for the control kind,
the injected script clicks nothing and logs the diagnostic message
"<action> button not found" to the console, but the IPC operation still
returns a success envelope; exceptions during script execution never
propagate across the boundary — they are converted to a failure result
carrying the error message. -/
theorem click_control_no_match_behavior (query : String → Option String)
    (key : SelectorKey) (actionName : String)
    (hnone : query (APPLE_MUSIC_SELECTORS.get key) = none) :
    (runClickScript query key actionName).clicked = false ∧
    (runClickScript query key actionName).consoleWarn =
      some (actionName ++ " button not found") ∧
    transportCommandHandler (some ()) (Except.ok (runClickScript query key actionName)) =
      { success := true, error := none } ∧
    (∀ e : String, transportCommandHandler (some ()) (Except.error e) =
      { success := false, error := some e }) := by
  simp [runClickScript, hnone, transportCommandHandler]

/-- Witness for the amended C3 at the next-track control on a document
matching nothing. -/
theorem click_control_no_match_witness :
    (runClickScript (fun _ => none) SelectorKey.next "Next").clicked = false ∧
    (runClickScript (fun _ => none) SelectorKey.next "Next").consoleWarn =
      some "Next button not found" ∧
    transportCommandHandler (some ())
      (Except.ok (runClickScript (fun _ => none) SelectorKey.next "Next")) =
      { success := true, error := none } ∧
    (∀ e : String, transportCommandHandler (some ()) (Except.error e) =
      { success := false, error := some e }) :=
  click_control_no_match_behavior (fun _ => none) SelectorKey.next "Next" rfl

end Selectors

namespace Autoplay

/-- A single poll tick finds nothing when no selector in the list matches. -/
theorem scanSelectors_eq_none (page : PageSnapshot) (l : List String)
    (h : ∀ sel ∈ l, page.query sel = none) : scanSelectors page l = none := by
  induction l with
  | nil => rfl
  | cons s rest ih =>
    simp only [scanSelectors]
    rw [h s (by simp)]
    exact ih (fun sel hs => h sel (by simp [hs]))

/-- When every tick scans empty, the polling loop runs its fuel out and
returns no match, with the attempt counter advanced by exactly the fuel. -/
theorem pollLoop_all_none (dom : Nat → PageSnapshot)
    (h : ∀ t, scanSelectors (dom t) MODERN_PLAY_SELECTORS = none) :
    ∀ fuel attempts, pollLoop dom fuel attempts = (none, attempts + fuel) := by
  intro fuel
  induction fuel with
  | zero => intro attempts; rfl
  | succ f ih =>
    intro attempts
    simp only [pollLoop, h attempts]
    rw [ih (attempts + 1)]
    refine congrArg (Prod.mk none) ?_
    omega

/-- C2: when no selector in the prioritized list ever matches, the
generated auto-play script terminates at the fixed ceiling — the loop runs
exactly `maxAttempts` = 60 polling attempts (250ms apart, a ~15s ceiling) —
and resolves with success false and trackFound false, a message naming the
15000ms bound, and a diagnostics object carrying the page's numeric counts
(totalButtons, playButtons, trackRows). -/
theorem autoplay_polling_bound (dom : Nat → PageSnapshot)
    (h : ∀ t sel, sel ∈ MODERN_PLAY_SELECTORS → (dom t).query sel = none) :
    attemptAutoPlay dom =
      { success := false,
        message := "Play button not found after 15000ms",
        trackFound := some false,
        selector := none,
        error := none,
        diagnostics := some
          { url := (dom 60).url,
            readyState := (dom 60).readyState,
            title := (dom 60).title,
            totalButtons := (dom 60).totalButtons,
            playButtons := (dom 60).playButtons,
            trackRows := (dom 60).trackRows } } ∧
    (pollLoop dom maxAttempts 0).2 = maxAttempts := by
  have hscan : ∀ t, scanSelectors (dom t) MODERN_PLAY_SELECTORS = none :=
    fun t => scanSelectors_eq_none (dom t) _ (fun sel hs => h t sel hs)
  have hpoll := pollLoop_all_none dom hscan maxAttempts 0
  constructor
  · simp only [attemptAutoPlay, hpoll]
    rfl
  · rw [hpoll]
    rfl

/-- A document on which `querySelector` matches nothing at any tick, with
fixed diagnostics counts. -/
def noMatchDom : Nat → PageSnapshot := fun _ =>
  { query := fun _ => none,
    url := "https://music.apple.com/us/playlist/pl.test",
    readyState := "complete",
    title := "Apple Music",
    totalButtons := 7,
    playButtons := 0,
    trackRows := 0 }

/-- Witness for C2 on the concrete never-matching document. -/
theorem autoplay_polling_bound_witness :
    attemptAutoPlay noMatchDom =
      { success := false,
        message := "Play button not found after 15000ms",
        trackFound := some false,
        selector := none,
        error := none,
        diagnostics := some
          { url := "https://music.apple.com/us/playlist/pl.test",
            readyState := "complete",
            title := "Apple Music",
            totalButtons := 7,
            playButtons := 0,
            trackRows := 0 } } ∧
    (pollLoop noMatchDom maxAttempts 0).2 = maxAttempts :=
  autoplay_polling_bound noMatchDom (fun _ _ _ => rfl)

end Autoplay
